import Mathlib

/-!
CrystFEL: prediction-refinement parameters and the `adjust_detector` tool

A shallow embedding of

* `enum gparam` of `libcrystfel/src/predict-refine.h`;
* `main` of `src/adjust_detector.c`, together with the option scanner
  `getopt_long` of the C library it drives;
* the two entry points `r_gradient` and `refine_prediction`, which
  predict-refine.h declares and whose bodies are described from the design
  document.

C strings are lists of characters, `double` values are rationals (rounding is
not modelled), and the calls `main` makes into the data-template library are
recorded in a trace.
-/

namespace CrystFEL

/-! ## `enum gparam` (predict-refine.h, lines 36-53) -/

/-- Enumeration of parameters which may want to be refined. -/
inductive gparam where
  | GPARAM_A_STAR
  | GPARAM_B_STAR
  | GPARAM_C_STAR
  | GPARAM_AL_STAR
  | GPARAM_BE_STAR
  | GPARAM_GA_STAR
  | GPARAM_CELL_RX
  | GPARAM_CELL_RY
  | GPARAM_CELL_RZ
  | GPARAM_DET_TX
  | GPARAM_DET_TY
  | GPARAM_DET_TZ
  | GPARAM_DET_RX
  | GPARAM_DET_RY
  | GPARAM_DET_RZ
  deriving DecidableEq, Repr

open gparam

/-- The enumerators of `enum gparam`, in the order of the declaration. -/
def gparam.enumerators : List gparam :=
  [GPARAM_A_STAR, GPARAM_B_STAR, GPARAM_C_STAR,
   GPARAM_AL_STAR, GPARAM_BE_STAR, GPARAM_GA_STAR,
   GPARAM_CELL_RX, GPARAM_CELL_RY, GPARAM_CELL_RZ,
   GPARAM_DET_TX, GPARAM_DET_TY, GPARAM_DET_TZ,
   GPARAM_DET_RX, GPARAM_DET_RY, GPARAM_DET_RZ]

/-- The integer value of an enumerator.  No enumerator of `enum gparam` has an
initialiser, so by the C rule the first one is 0 and each later one is its
predecessor plus one: the value is the position in the declaration. -/
def gparam.val (g : gparam) : Nat :=
  gparam.enumerators.indexOf g

/-- The identifier of an enumerator as it is spelled in the header. -/
def gparam.ident : gparam → List Char
  | GPARAM_A_STAR => "GPARAM_A_STAR".toList
  | GPARAM_B_STAR => "GPARAM_B_STAR".toList
  | GPARAM_C_STAR => "GPARAM_C_STAR".toList
  | GPARAM_AL_STAR => "GPARAM_AL_STAR".toList
  | GPARAM_BE_STAR => "GPARAM_BE_STAR".toList
  | GPARAM_GA_STAR => "GPARAM_GA_STAR".toList
  | GPARAM_CELL_RX => "GPARAM_CELL_RX".toList
  | GPARAM_CELL_RY => "GPARAM_CELL_RY".toList
  | GPARAM_CELL_RZ => "GPARAM_CELL_RZ".toList
  | GPARAM_DET_TX => "GPARAM_DET_TX".toList
  | GPARAM_DET_TY => "GPARAM_DET_TY".toList
  | GPARAM_DET_TZ => "GPARAM_DET_TZ".toList
  | GPARAM_DET_RX => "GPARAM_DET_RX".toList
  | GPARAM_DET_RY => "GPARAM_DET_RY".toList
  | GPARAM_DET_RZ => "GPARAM_DET_RZ".toList

/-- A detector parameter: the header names these `GPARAM_DET_...` and comments
the rotations as "Detector panel (group) rotation". -/
def gparam.isDetector (g : gparam) : Bool :=
  "GPARAM_DET_".toList.isPrefixOf g.ident

/-- A crystal parameter: every enumerator that is not a detector parameter
(the reciprocal cell parameters `..._STAR` and the cell rotations
`GPARAM_CELL_R.`, commented "Cell rotation around +x" and so on). -/
def gparam.isCrystal (g : gparam) : Bool :=
  !g.isDetector

/-- The crystal family, in declaration order. -/
def gparam.crystalFamily : List gparam :=
  gparam.enumerators.filter gparam.isCrystal

/-- The detector family, in declaration order. -/
def gparam.detectorFamily : List gparam :=
  gparam.enumerators.filter gparam.isDetector

/-- The reciprocal-cell parameters of the crystal family: identifiers ending
in `_STAR`. -/
def gparam.isStar (g : gparam) : Bool :=
  "_STAR".toList.isSuffixOf g.ident

/-- The cell rotations of the crystal family: identifiers `GPARAM_CELL_R.`. -/
def gparam.isCellRotation (g : gparam) : Bool :=
  "GPARAM_CELL_R".toList.isPrefixOf g.ident

end CrystFEL

namespace CrystFEL

/-! ## The C library's `getopt_long`, as `main` of adjust_detector.c calls it -/

/-- A C string: the characters before the terminating NUL. -/
abbrev CStr := List Char

/-- The variables a `struct option` of `main` can point its `flag` field to. -/
inductive FlagVar where
  | panel_totals
  deriving DecidableEq, Repr

/-- One `struct option` of <getopt.h>: `{name, has_arg, flag, val}`, where
`flag = none` is a NULL flag pointer. -/
structure LongOpt where
  name : CStr
  has_arg : Nat
  flag : Option FlagVar
  val : Nat
  deriving DecidableEq, Repr

/-- What one call of `getopt_long` that found an option element leaves behind:
the return value `c`, the global `optarg` (`none` is NULL) and, for a long
option with a flag pointer, the store `*flag = val` it performed. -/
structure GetoptResult where
  c : Nat
  optarg : Option CStr
  store : Option (FlagVar × Nat)
  deriving DecidableEq, Repr

/-- The return value for an unrecognised option or a missing argument. -/
def getoptError : GetoptResult := ⟨'?'.toNat, none, none⟩

/-- Return value for a missing required argument: `':'` when optstring starts
with a colon, `'?'` otherwise. -/
def getoptMissing (optstring : CStr) : GetoptResult :=
  if optstring.head? = some ':' then ⟨':'.toNat, none, none⟩ else getoptError

/-- The call `strchr(optstring, c)` followed by the look at `temp[1]` and `temp[2]`:
`none` when `c` is no option character, else 0 (no argument), 1 (required
argument, one colon) or 2 (optional argument, two colons). -/
def optstringLookup : CStr → Char → Option Nat
  | [], _ => none
  | x :: xs, c =>
    if x = c then
      some (if xs.head? = some ':' then
              (if xs.tail.head? = some ':' then 2 else 1)
            else 0)
    else optstringLookup xs c

/-- Scan the option characters of one element `-abc`: `cs` are the characters
not yet consumed, `next` the following element of argv if there is one.
Returns the results of the successive calls that consume this element and
whether the following element was taken as an argument. -/
def shortCluster (optstring : CStr) : List Char → Option CStr → List GetoptResult × Bool
  | [], _ => ([], false)
  | c :: rest, next =>
    if c = ':' ∨ c = ';' then
      (getoptError :: (shortCluster optstring rest next).1, (shortCluster optstring rest next).2)
    else
      match optstringLookup optstring c with
      | none =>
        (getoptError :: (shortCluster optstring rest next).1, (shortCluster optstring rest next).2)
      | some k =>
        if k = 0 then
          (⟨c.toNat, none, none⟩ :: (shortCluster optstring rest next).1,
           (shortCluster optstring rest next).2)
        else if k = 1 then
          (if rest ≠ [] then ([⟨c.toNat, some rest, none⟩], false)
           else
             match next with
             | none => ([getoptMissing optstring], false)
             | some a => ([⟨c.toNat, some a, none⟩], true))
        else
          (if rest ≠ [] then ([⟨c.toNat, some rest, none⟩], false)
           else ([⟨c.toNat, none, none⟩], false))

/-- The long option an element `--name` or `--name=value` selects: an exact
match of the name if there is one; otherwise the first option `name` is an
abbreviation of, unless a later candidate differs from it in `has_arg`, `flag`
or `val` (ambiguous, `none`).  `none` also when nothing matches. -/
def findLongOpt (longopts : List LongOpt) (name : CStr) : Option LongOpt :=
  match longopts.find? (fun p => p.name = name) with
  | some p => some p
  | none =>
    match longopts.filter (fun p => name.isPrefixOf p.name) with
    | [] => none
    | p :: more =>
      if more.any (fun q => q.has_arg ≠ p.has_arg ∨ q.flag ≠ p.flag ∨ q.val ≠ p.val)
      then none else some p

/-- The call of `getopt_long` on an element `--body` (`body` not empty), with
`next` the following element of argv if there is one.  Returns the result and
whether the following element was taken as the argument. -/
def longOption (optstring : CStr) (longopts : List LongOpt) (body : CStr)
    (next : Option CStr) : GetoptResult × Bool :=
  let name := body.takeWhile (fun ch => ch ≠ '=')
  let hasEq := decide (name.length < body.length)
  match findLongOpt longopts name with
  | none => (getoptError, false)
  | some p =>
    let store := p.flag.map (fun f => (f, p.val))
    let c := if p.flag.isSome then 0 else p.val
    if hasEq then
      if p.has_arg ≠ 0 then (⟨c, some (body.drop (name.length + 1)), store⟩, false)
      else (getoptError, false)
    else if p.has_arg = 1 then
      match next with
      | some a => (⟨c, some a, store⟩, true)
      | none => (getoptMissing optstring, false)
    else (⟨c, none, store⟩, false)

/-- An element that is not an option: it does not start with `-`, or it is
exactly `-`. -/
def isNonOption (a : CStr) : Bool :=
  decide (a.head? ≠ some '-' ∨ a.tail = [])

/-- The results of the successive calls of `getopt_long` over the elements
`argv[optind..]`, until it returns -1.  `taken` says that the first element
was already consumed as the argument of the option before it.  With
`posixly = false` (the default, argv is permuted) non-options are skipped;
with `posixly = true` (POSIXLY_CORRECT set) the scan stops at the first
non-option.  The element `--` ends the scan in both modes. -/
def getoptScan (posixly : Bool) (optstring : CStr) (longopts : List LongOpt) :
    Bool → List CStr → List GetoptResult
  | _, [] => []
  | true, _ :: rest => getoptScan posixly optstring longopts false rest
  | false, a :: rest =>
    if a = ['-', '-'] then []
    else if isNonOption a then
      (if posixly then [] else getoptScan posixly optstring longopts false rest)
    else if a.tail.head? = some '-' then
      (longOption optstring longopts (a.drop 2) rest.head?).1 ::
        getoptScan posixly optstring longopts
          (longOption optstring longopts (a.drop 2) rest.head?).2 rest
    else
      (shortCluster optstring a.tail rest.head?).1 ++
        getoptScan posixly optstring longopts
          (shortCluster optstring a.tail rest.head?).2 rest

/-- The results of all calls `getopt_long(argc, argv, optstring, longopts,
NULL)` of a loop that runs until -1: the scan starts at `argv[1]`. -/
def getopt_long (posixly : Bool) (optstring : CStr) (longopts : List LongOpt)
    (argv : List CStr) : List GetoptResult :=
  getoptScan posixly optstring longopts false argv.tail

end CrystFEL

namespace CrystFEL

/-! ## `main` of adjust_detector.c -/

/-- What `main` prints and which data-template functions it calls, in order. -/
inductive Effect where
  /-- The line of `show_syntax(s)`. -/
  | syntaxLine (s : Option CStr)
  /-- The text of `show_help(s)`, which starts with the line of `show_syntax`. -/
  | helpText (s : Option CStr)
  /-- The two lines printed for `-V`. -/
  | versionText
  /-- The message of `ERROR("Invalid value for -%c.\n", complain)`. -/
  | invalidValue (complain : Char)
  /-- The message of `ERROR("Unhandled option '%c'\n", c)`. -/
  | unhandledOption (c : Nat)
  /-- Any other `ERROR(...)` message. -/
  | error (msg : String)
  | data_template_new_from_file (filename : CStr)
  | data_template_reset_total_movements
  | data_template_translate_group_m (group : Option CStr) (x y z : ℚ)
  | data_template_translate_group_px (group : Option CStr) (x y z : ℚ)
  | data_template_rotate_group (group : Option CStr) (ang : ℚ) (axis : Char)
  | data_template_print_total_movements
  | data_template_write_to_file (filename : CStr)
  | data_template_free
  deriving DecidableEq

/-- The functions `main` calls that live outside adjust_detector.c, over a
type `DT` of data-template states: `strtod` gives the value and the unparsed
rest (`*rval`), `data_template_new_from_file` gives `none` for NULL, and the
functions returning `int` give it together with the new state. -/
structure Ext (DT : Type) where
  strtod : CStr → ℚ × CStr
  deg2rad : ℚ → ℚ
  data_template_new_from_file : CStr → Option DT
  data_template_reset_total_movements : DT → DT
  data_template_translate_group_m : DT → Option CStr → ℚ → ℚ → ℚ → Int × DT
  data_template_translate_group_px : DT → Option CStr → ℚ → ℚ → ℚ → Int × DT
  data_template_rotate_group : DT → Option CStr → ℚ → Char → Int × DT
  data_template_write_to_file : DT → CStr → Int

/-- The local variables of `main` that the option loop sets. -/
structure Vars where
  in_geom : Option CStr
  out_geom : Option CStr
  x_shift : ℚ
  y_shift : ℚ
  z_shift : ℚ
  x_rot : ℚ
  y_rot : ℚ
  z_rot : ℚ
  mm : Int
  group : Option CStr
  panel_totals : Int
  deriving DecidableEq

/-- The initialisers of `main` (lines 94-105). -/
def Vars.init : Vars :=
  { in_geom := none, out_geom := none,
    x_shift := 0, y_shift := 0, z_shift := 0,
    x_rot := 0, y_rot := 0, z_rot := 0,
    mm := 0, group := some "all".toList, panel_totals := 0 }

/-- The table `longopts` of `main` (lines 108-128). -/
def longopts : List LongOpt :=
  [ ⟨"help".toList, 0, none, 'h'.toNat⟩,
    ⟨"verbose".toList, 0, none, 'v'.toNat⟩,
    ⟨"version".toList, 0, none, 'V'.toNat⟩,
    ⟨"input".toList, 1, none, 'g'.toNat⟩,
    ⟨"output".toList, 1, none, 'o'.toNat⟩,
    ⟨"panel".toList, 1, none, 'p'.toNat⟩,
    ⟨"mm".toList, 0, none, 3⟩,
    ⟨"panel-totals".toList, 0, some FlagVar.panel_totals, 1⟩,
    ⟨"shiftx".toList, 1, none, 11⟩,
    ⟨"shifty".toList, 1, none, 12⟩,
    ⟨"shiftz".toList, 1, none, 13⟩,
    ⟨"rotx".toList, 1, none, 14⟩,
    ⟨"roty".toList, 1, none, 15⟩,
    ⟨"rotz".toList, 1, none, 16⟩ ]

/-- The short options of `main` (line 131). -/
def optstring : CStr := "hVo:g:i:l:p:".toList

/-- What the body of the option loop does with one option. -/
inductive Step where
  /-- The body reached `break`: go on with the next call of `getopt_long`. -/
  | next (v : Vars) (out : List Effect)
  /-- The body left with `return status` from `main`, or `exit(status)`. -/
  | stop (status : Int) (out : List Effect)
  /-- A null `optarg` is handed to `strdup` or `strtod`. -/
  | undefined

/-- The function `parse_double(str, complain)` (lines 74-87).  It reads the
global `optarg`, not its parameter `str`; `inl` is the `exit(1)` branch. -/
def parse_double {DT : Type} (E : Ext DT) (optarg : Option CStr) (_str : Option CStr)
    (complain : Char) : Option (List Effect ⊕ ℚ) :=
  match optarg with
  | none => none
  | some s =>
    if (E.strtod s).2 ≠ [] then some (Sum.inl [Effect.invalidValue complain])
    else some (Sum.inr (E.strtod s).1)

/-- Assign the result of `parse_double` with `set`, or leave `main`. -/
def assignDouble (r : Option (List Effect ⊕ ℚ)) (set : ℚ → Vars) : Step :=
  match r with
  | none => Step.undefined
  | some (Sum.inl out) => Step.stop 1 out
  | some (Sum.inr x) => Step.next (set x) []

/-- The store `*flag = val` that `getopt_long` performs for a flag option. -/
def applyStore (v : Vars) : Option (FlagVar × Nat) → Vars
  | none => v
  | some (FlagVar.panel_totals, n) => { v with panel_totals := n }

/-- The `switch (c)` of the option loop (lines 135-198), on the variables as
`getopt_long` left them. -/
def switchOption {DT : Type} (E : Ext DT) (argv0 : Option CStr) (v : Vars)
    (r : GetoptResult) : Step :=
  if r.c = 'h'.toNat then Step.stop 0 [Effect.helpText argv0]
  else if r.c = 'V'.toNat then Step.stop 0 [Effect.versionText]
  else if r.c = 'g'.toNat ∨ r.c = 'i'.toNat then
    match r.optarg with
    | none => Step.undefined
    | some s => Step.next { v with in_geom := some s } []
  else if r.c = 'o'.toNat then
    match r.optarg with
    | none => Step.undefined
    | some s => Step.next { v with out_geom := some s } []
  else if r.c = 'p'.toNat then
    match r.optarg with
    | none => Step.undefined
    | some s => Step.next { v with group := some s } []
  else if r.c = 3 then Step.next { v with mm := 1 } []
  else if r.c = 11 then
    assignDouble (parse_double E r.optarg r.optarg 'x') (fun x => { v with x_shift := x })
  else if r.c = 12 then
    assignDouble (parse_double E r.optarg r.optarg 'y') (fun x => { v with y_shift := x })
  else if r.c = 13 then
    assignDouble (parse_double E r.optarg r.optarg 'z') (fun x => { v with z_shift := x })
  else if r.c = 14 then
    assignDouble (parse_double E r.optarg r.optarg 'a') (fun x => { v with x_rot := x })
  else if r.c = 15 then
    assignDouble (parse_double E r.optarg r.optarg 'b') (fun x => { v with y_rot := x })
  else if r.c = 16 then
    assignDouble (parse_double E r.optarg r.optarg 'c') (fun x => { v with z_rot := x })
  else if r.c = 0 then Step.next v []
  else if r.c = '?'.toNat then Step.next v []
  else Step.next v [Effect.unhandledOption r.c]

/-- One pass through the loop body for the result `r` of `getopt_long`. -/
def loopBody {DT : Type} (E : Ext DT) (argv0 : Option CStr) (v : Vars)
    (r : GetoptResult) : Step :=
  switchOption E argv0 (applyStore v r.store) r

/-- The `while` loop over the results of `getopt_long` (lines 131-200): the
step it ends with is `next v out` when `getopt_long` returned -1 with the
variables `v`, and `stop` or `undefined` when the body left the loop; `out` is
everything printed on the way. -/
def optionLoop {DT : Type} (E : Ext DT) (argv0 : Option CStr) :
    Vars → List GetoptResult → Step
  | v, [] => Step.next v []
  | v, r :: rs =>
    match loopBody E argv0 v r with
    | Step.undefined => Step.undefined
    | Step.stop status out => Step.stop status out
    | Step.next v1 out =>
      match optionLoop E argv0 v1 rs with
      | Step.undefined => Step.undefined
      | Step.stop status out1 => Step.stop status (out ++ out1)
      | Step.next v2 out1 => Step.next v2 (out ++ out1)

/-- How a run of `main` ends: the exit status and what was printed and called. -/
structure Outcome where
  status : Int
  trace : List Effect
  deriving DecidableEq

/-- The movement of the detector and the writing of the result (lines
210-253), once the geometry `dt` is loaded. -/
def moveAndWrite {DT : Type} (E : Ext DT) (v : Vars) (out_geom : CStr) (dt : DT) : Outcome :=
  let dt1 := E.data_template_reset_total_movements dt
  let tr1 := [Effect.data_template_reset_total_movements]
  let r :=
    if v.mm ≠ 0 then
      E.data_template_translate_group_m dt1 v.group
        (v.x_shift * (1 / 1000)) (v.y_shift * (1 / 1000)) (v.z_shift * (1 / 1000))
    else
      E.data_template_translate_group_px dt1 v.group v.x_shift v.y_shift v.z_shift
  let tr2 := tr1 ++
    [if v.mm ≠ 0 then
       Effect.data_template_translate_group_m v.group
         (v.x_shift * (1 / 1000)) (v.y_shift * (1 / 1000)) (v.z_shift * (1 / 1000))
     else
       Effect.data_template_translate_group_px v.group v.x_shift v.y_shift v.z_shift]
  if r.1 ≠ 0 then ⟨1, tr2 ++ [Effect.error "Failed to translate group."]⟩
  else
    let rx := E.data_template_rotate_group r.2 v.group (E.deg2rad v.x_rot) 'x'
    let tr3 := tr2 ++ [Effect.data_template_rotate_group v.group (E.deg2rad v.x_rot) 'x']
    if rx.1 ≠ 0 then ⟨1, tr3 ++ [Effect.error "Failed to rotate group around x."]⟩
    else
      let ry := E.data_template_rotate_group rx.2 v.group (E.deg2rad v.y_rot) 'y'
      let tr4 := tr3 ++ [Effect.data_template_rotate_group v.group (E.deg2rad v.y_rot) 'y']
      if ry.1 ≠ 0 then ⟨1, tr4 ++ [Effect.error "Failed to rotate group around y."]⟩
      else
        let rz := E.data_template_rotate_group ry.2 v.group (E.deg2rad v.z_rot) 'z'
        let tr5 := tr4 ++ [Effect.data_template_rotate_group v.group (E.deg2rad v.z_rot) 'z']
        if rz.1 ≠ 0 then ⟨1, tr5 ++ [Effect.error "Failed to rotate group around z."]⟩
        else
          let tr6 := tr5 ++
            (if v.panel_totals ≠ 0 then [Effect.data_template_print_total_movements] else [])
          if E.data_template_write_to_file rz.2 out_geom ≠ 0 then
            ⟨1, tr6 ++ [Effect.data_template_write_to_file out_geom,
                        Effect.error "Failed to save geometry file."]⟩
          else
            ⟨0, tr6 ++ [Effect.data_template_write_to_file out_geom,
                        Effect.data_template_free]⟩

/-- What `main` does after the option loop (lines 202-253). -/
def afterOptions {DT : Type} (E : Ext DT) (argv0 : Option CStr) (v : Vars) : Outcome :=
  match v.in_geom, v.out_geom with
  | some in_geom, some out_geom =>
    match E.data_template_new_from_file in_geom with
    | none => ⟨1, [Effect.data_template_new_from_file in_geom]⟩
    | some dt =>
      let o := moveAndWrite E v out_geom dt
      ⟨o.status, Effect.data_template_new_from_file in_geom :: o.trace⟩
  | _, _ => ⟨1, [Effect.syntaxLine argv0]⟩

/-- The function `main(argc, argv)` of adjust_detector.c; `none` is undefined behaviour (a
null `optarg` handed to the C library). -/
def adjust_detector_main {DT : Type} (E : Ext DT) (posixly : Bool) (argv : List CStr) :
    Option Outcome :=
  match optionLoop E argv.head? Vars.init (getopt_long posixly optstring longopts argv) with
  | Step.undefined => none
  | Step.stop status out => some ⟨status, out⟩
  | Step.next v out =>
    some ⟨(afterOptions E argv.head? v).status, out ++ (afterOptions E argv.head? v).trace⟩

end CrystFEL

namespace CrystFEL

/-! ## `r_gradient` and `refine_prediction` (predict-refine.h, lines 74-86)

The header declares both functions; their bodies are in predict-refine.c,
which is not among the sources.  The two definitions below follow the design
document instead. -/

/-- The parameter identifier with the integer value `param`, if there is one:
`r_gradient` takes its parameter as an `int`. -/
def gparam.ofInt (param : Int) : Option gparam :=
  if param < 0 then none else gparam.enumerators.get? param.toNat

/-- A predicted reflection: its integer Miller indices. -/
structure Reflection where
  h : Int
  k : Int
  l : Int
  deriving DecidableEq, Repr

/-- A unit cell, as far as the gradient model reads it: the components of the
three reciprocal-basis vectors. -/
structure UnitCell where
  asx : ℚ
  asy : ℚ
  asz : ℚ
  bsx : ℚ
  bsy : ℚ
  bsz : ℚ
  csx : ℚ
  csy : ℚ
  csz : ℚ
  deriving DecidableEq

/-- Modelled from the spec: the body of `r_gradient`, which is missing from the
sources (predict-refine.h holds only the declaration).  Section 4.3: the
function returns the partial derivative of the excitation-error residual with
respect to one parameter; for a crystal-family parameter it is a closed form
over the reciprocal-basis vectors, which the document describes but does not
give and which is the argument `crystalGradient` here; "a parameter with no
analytic path to a given residual (e.g., a detector translation's effect on the
excitation-error residual is zero by construction) contributes an exact zero",
and section 8: a detector-family identifier "must yield an exactly-zero
gradient contribution".  For an `int` that is no parameter identifier the
document says nothing (`none`). -/
def r_gradient (crystalGradient : gparam → Reflection → UnitCell → ℚ → ℚ)
    (param : Int) (refl : Reflection) (cell : UnitCell) (wavelength : ℚ) : Option ℚ :=
  match gparam.ofInt param with
  | none => none
  | some g =>
    if g.isDetector then some 0
    else some (crystalGradient g refl cell wavelength)

/-- The states of the refinement engine (section 4.4). -/
inductive RefineState where
  | INITIALIZED
  | ITERATING
  | CONVERGED
  | STALLED
  | DIVERGED
  deriving DecidableEq, Repr

/-- Modelled from the spec: the parts of one refinement call that section 4.4
names without defining them, over types of images, crystals and parameter
increments: the number of usable matched pairs, the number of active
parameters, the total weighted residual, the solve of the weighted normal
equations (`none` when singular or ill-conditioned), the application of an
increment to the crystal, the relative tolerance of the convergence test, the
factor beyond which the residual "increases substantially", and the iteration
cap. -/
structure RefineEngine (Image Crystal Incr : Type) where
  matchedPairs : Image → Crystal → Nat
  activeParams : Nat
  residual : Image → Crystal → ℚ
  solve : Image → Crystal → Option Incr
  applyIncrement : Crystal → Incr → Crystal
  tolerance : ℚ
  divergeFactor : ℚ
  iterationCap : Nat

/-- Modelled from the spec: the `ITERATING` state of section 4.4, on the
crystal that is updated in place.  Each step solves for an increment
(`DIVERGED` when the solve fails), applies it, recomputes the residual
(`DIVERGED` when it increased substantially), and ends in `CONVERGED` when the
improvement `res - res1` is below the relative tolerance; `STALLED` when `steps`, the rest
of the iteration cap, is used up.  Returns the final state and the crystal as
the iterations left it. -/
def refineIterate {Image Crystal Incr : Type} (M : RefineEngine Image Crystal Incr)
    (image : Image) : Nat → Crystal → ℚ → RefineState × Crystal
  | 0, cr, _ => (RefineState.STALLED, cr)
  | steps + 1, cr, res =>
    match M.solve image cr with
    | none => (RefineState.DIVERGED, cr)
    | some d =>
      if M.divergeFactor * res < M.residual image (M.applyIncrement cr d) then
        (RefineState.DIVERGED, M.applyIncrement cr d)
      else if res - M.residual image (M.applyIncrement cr d) ≤ M.tolerance * res then
        (RefineState.CONVERGED, M.applyIncrement cr d)
      else
        refineIterate M image steps (M.applyIncrement cr d)
          (M.residual image (M.applyIncrement cr d))

/-- The result of one call of `refine_prediction`: the return value (0 for
success), the state the engine ended in, and the crystal after the call. -/
structure RefineResult (Crystal : Type) where
  status : Int
  state : RefineState
  crystal : Crystal

/-- Modelled from the spec: the body of `refine_prediction`, which is missing
from the sources (predict-refine.h holds only the declaration).  Section 6:
the call "mutates crystal's orientation/cell in place on success; on
STALLED/DIVERGED leaves crystal unchanged and returns failure"; section 4.4:
this is done "by keeping a rollback copy of the pre-iteration state"; section
7 (b): too few matched pairs for the active parameters is reported as
`DIVERGED`.  The alignment accumulator `mille` and `max_mille_level` only
feed the export adapter of section 4.5, which is not modelled. -/
def refine_prediction {Image Crystal Incr Mille : Type}
    (M : RefineEngine Image Crystal Incr) (image : Image) (cr : Crystal)
    (_mille : Option Mille) (_max_mille_level : Int) : RefineResult Crystal :=
  let rollback := cr
  if M.matchedPairs image cr < M.activeParams then
    ⟨1, RefineState.DIVERGED, rollback⟩
  else
    match refineIterate M image M.iterationCap cr (M.residual image cr) with
    | (RefineState.CONVERGED, cr1) => ⟨0, RefineState.CONVERGED, cr1⟩
    | (st, _) => ⟨1, st, rollback⟩

/-- An engine on crystals that are a single number: the solve gives the
increment 1 below 2 and is singular from 2 on, the residual is `10 - cr`. -/
def sampleEngine : RefineEngine Unit Int Int where
  matchedPairs := fun _ _ => 20
  activeParams := 9
  residual := fun _ cr => 10 - (cr : ℚ)
  solve := fun _ cr => if cr < 2 then some 1 else none
  applyIncrement := fun cr d => cr + d
  tolerance := 1 / 1000
  divergeFactor := 2
  iterationCap := 5

/-- A gradient for the crystal family that is nowhere zero. -/
def sampleCrystalGradient : gparam → Reflection → UnitCell → ℚ → ℚ :=
  fun _ _ _ _ => 1

end CrystFEL

namespace CrystFEL

/-! ## A concrete environment and command lines, for evaluating `main` -/

/-- A stand-in for `strtod` that knows the strings `2` and `0.5` and reads
nothing of any other string. -/
def sampleStrtod (s : CStr) : ℚ × CStr :=
  if s = "2".toList then (2, [])
  else if s = "0.5".toList then (1 / 2, [])
  else (0, s)

/-- An environment in which every geometry file loads and every operation on
it succeeds; the data-template state is the list of files loaded. -/
def sampleExt : Ext (List CStr) where
  strtod := sampleStrtod
  deg2rad := fun x => x * (355 / 113) / 180
  data_template_new_from_file := fun f => some [f]
  data_template_reset_total_movements := fun dt => dt
  data_template_translate_group_m := fun dt _ _ _ _ => (0, dt)
  data_template_translate_group_px := fun dt _ _ _ _ => (0, dt)
  data_template_rotate_group := fun dt _ _ _ => (0, dt)
  data_template_write_to_file := fun _ _ => 0

/-- The command line `adjust_detector -o out.geom --mm`. -/
def argvNoInput : List CStr :=
  ["adjust_detector".toList, "-o".toList, "out.geom".toList, "--mm".toList]

/-- The command line
`adjust_detector -g in.geom -o out.geom --mm --shiftx=2 -p q0`. -/
def argvMillimetres : List CStr :=
  ["adjust_detector".toList, "-g".toList, "in.geom".toList, "-o".toList,
   "out.geom".toList, "--mm".toList, "--shiftx=2".toList, "-p".toList, "q0".toList]

/-- What `main` does on `argvMillimetres` in `sampleExt`. -/
def outcomeMillimetres : Outcome :=
  ⟨0, [Effect.data_template_new_from_file "in.geom".toList,
       Effect.data_template_reset_total_movements,
       Effect.data_template_translate_group_m (some "q0".toList)
         (2 * (1 / 1000)) (0 * (1 / 1000)) (0 * (1 / 1000)),
       Effect.data_template_rotate_group (some "q0".toList) (sampleExt.deg2rad 0) 'x',
       Effect.data_template_rotate_group (some "q0".toList) (sampleExt.deg2rad 0) 'y',
       Effect.data_template_rotate_group (some "q0".toList) (sampleExt.deg2rad 0) 'z',
       Effect.data_template_write_to_file "out.geom".toList,
       Effect.data_template_free]⟩

end CrystFEL

namespace CrystFEL

/-! ## Notions used to state the theorems -/

/-- The return values for which the `switch` of `main` reads `optarg`. -/
def readsOptarg (c : Nat) : Bool :=
  decide (c ∈ ['g'.toNat, 'i'.toNat, 'o'.toNat, 'p'.toNat, 11, 12, 13, 14, 15, 16])

/-- A result that carries an argument whenever `main` is going to read it. -/
def GetoptResult.argOk (r : GetoptResult) : Prop :=
  readsOptarg r.c = true → r.optarg.isSome = true

/-- The calls into the data-template library. -/
def Effect.isGeometryCall : Effect → Bool
  | Effect.data_template_new_from_file _ => true
  | Effect.data_template_reset_total_movements => true
  | Effect.data_template_translate_group_m _ _ _ _ => true
  | Effect.data_template_translate_group_px _ _ _ _ => true
  | Effect.data_template_rotate_group _ _ _ => true
  | Effect.data_template_print_total_movements => true
  | Effect.data_template_write_to_file _ => true
  | Effect.data_template_free => true
  | _ => false

/-- The two translation operations. -/
def Effect.isTranslation : Effect → Bool
  | Effect.data_template_translate_group_m _ _ _ _ => true
  | Effect.data_template_translate_group_px _ _ _ _ => true
  | _ => false

/-- The value `strtod` reads from the argument of a result. -/
def parsedValue {DT : Type} (E : Ext DT) (r : GetoptResult) : ℚ :=
  (E.strtod (r.optarg.getD [])).1

/-- The last result of the scan that satisfies `p`. -/
def lastResult (p : GetoptResult → Bool) (rs : List GetoptResult) : Option GetoptResult :=
  rs.reverse.find? p

/-- The option `--mm` is among the results of the scan. -/
def mmGiven (rs : List GetoptResult) : Bool :=
  rs.any (fun r => decide (r.c = 3))

/-- The shift given with the last option of return value `code` (11, 12, 13
for `--shiftx`, `--shifty`, `--shiftz`), 0 if there is none. -/
def shiftGiven {DT : Type} (E : Ext DT) (code : Nat) (rs : List GetoptResult) : ℚ :=
  match lastResult (fun r => decide (r.c = code)) rs with
  | some r => parsedValue E r
  | none => 0

/-- The group selected with the last `-p`, `all` if there is none. -/
def groupGiven (rs : List GetoptResult) : Option CStr :=
  match lastResult (fun r => decide (r.c = 'p'.toNat)) rs with
  | some r => r.optarg
  | none => some "all".toList

/-- The one translation the command line asks for: in metres, with the shifts
divided by 1000, when `--mm` is given, in pixels with the shifts unchanged
otherwise. -/
def expectedTranslation {DT : Type} (E : Ext DT) (rs : List GetoptResult) : Effect :=
  if mmGiven rs then
    Effect.data_template_translate_group_m (groupGiven rs)
      (shiftGiven E 11 rs / 1000) (shiftGiven E 12 rs / 1000) (shiftGiven E 13 rs / 1000)
  else
    Effect.data_template_translate_group_px (groupGiven rs)
      (shiftGiven E 11 rs) (shiftGiven E 12 rs) (shiftGiven E 13 rs)

end CrystFEL

namespace CrystFEL

/-! ## Theorems: `enum gparam` -/

open gparam

/-- C1: `enum gparam` has exactly 15 enumerators, pairwise distinct, and their
values are the consecutive integers 0 to 14 in declaration order, from
`GPARAM_A_STAR = 0` up to `GPARAM_DET_RZ = 14`. -/
theorem gparam_fifteen_consecutive :
    gparam.enumerators.length = 15 ∧
    gparam.enumerators.Nodup ∧
    (∀ g : gparam, g ∈ gparam.enumerators) ∧
    gparam.enumerators.map gparam.val = List.range 15 ∧
    (∀ g h : gparam, g.val = h.val → g = h) ∧
    GPARAM_A_STAR.val = 0 ∧ GPARAM_DET_RZ.val = 14 := by
  refine ⟨by decide, by decide, ?_, by decide, ?_, by decide, by decide⟩
  · intro g; cases g <;> decide
  · intro g h; cases g <;> cases h <;> decide

/-- C2, as the spec states it, fails: the crystal family does not have 6 and
the detector family does not have 9 identifiers. -/
theorem gparam_families_not_six_nine :
    ¬ (gparam.crystalFamily.length = 6 ∧ gparam.detectorFamily.length = 9) := by
  decide

/-- C2, amended: the crystal family has exactly 9 identifiers (the six
reciprocal cell parameters and the three cell rotations about x, y, z), the
detector family has exactly 6 (three translations and three rotations), and
every identifier belongs to exactly one of the two families. -/
theorem gparam_families_nine_six :
    gparam.crystalFamily.length = 9 ∧
    (gparam.crystalFamily.filter gparam.isStar).length = 6 ∧
    gparam.crystalFamily.filter gparam.isCellRotation =
      [GPARAM_CELL_RX, GPARAM_CELL_RY, GPARAM_CELL_RZ] ∧
    (∀ g ∈ gparam.crystalFamily, g.isStar ≠ g.isCellRotation) ∧
    gparam.detectorFamily =
      [GPARAM_DET_TX, GPARAM_DET_TY, GPARAM_DET_TZ,
       GPARAM_DET_RX, GPARAM_DET_RY, GPARAM_DET_RZ] ∧
    (∀ g : gparam, (g ∈ gparam.crystalFamily ∧ g ∉ gparam.detectorFamily) ∨
                   (g ∉ gparam.crystalFamily ∧ g ∈ gparam.detectorFamily)) := by
  refine ⟨by decide, by decide, by decide, by decide, by decide, ?_⟩
  intro g; cases g <;> decide

/-! ## Theorems: the option scanner -/

theorem optstring_eq :
    optstring = ['h', 'V', 'o', ':', 'g', ':', 'i', ':', 'l', ':', 'p', ':'] := by
  decide

theorem optstringLookup_cases (c : Char) (k : Nat) (hc : c ≠ ':')
    (h : optstringLookup optstring c = some k) :
    (k = 0 ∧ (c = 'h' ∨ c = 'V')) ∨ k = 1 := by
  rw [optstring_eq] at h
  simp only [optstringLookup, List.head?, List.tail, Option.some.injEq, reduceCtorEq,
    Char.reduceEq, if_true, if_false, ite_true, ite_false] at h
  split_ifs at h with h1 h2 h3 h4 h5 h6 h7 h8 <;>
    first
    | exact absurd h4.symm hc
    | (cases h; exact Or.inr rfl)
    | (cases h; exact Or.inl ⟨rfl, Or.inl h1.symm⟩)
    | (cases h; exact Or.inl ⟨rfl, Or.inr h2.symm⟩)

theorem getoptMissing_optstring : getoptMissing optstring = getoptError := by
  decide

theorem getoptError_argOk : getoptError.argOk := by
  intro h; exact absurd h (by decide)

theorem shortCluster_argOk (cs : List Char) (next : Option CStr) :
    ∀ r ∈ (shortCluster optstring cs next).1, r.argOk := by
  induction cs with
  | nil => intro r hr; simp [shortCluster] at hr
  | cons c rest ih =>
    intro r hr
    simp only [shortCluster] at hr
    by_cases hc : c = ':' ∨ c = ';'
    · rw [if_pos hc] at hr
      simp only [List.mem_cons] at hr
      rcases hr with rfl | hr
      · exact getoptError_argOk
      · exact ih r hr
    · rw [if_neg hc] at hr
      have hc1 : c ≠ ':' := fun h => hc (Or.inl h)
      cases hl : optstringLookup optstring c with
      | none =>
        rw [hl] at hr
        simp only [List.mem_cons] at hr
        rcases hr with rfl | hr
        · exact getoptError_argOk
        · exact ih r hr
      | some k =>
        rw [hl] at hr
        rcases optstringLookup_cases c k hc1 hl with ⟨rfl, hhV⟩ | rfl
        · simp only [if_true, List.mem_cons] at hr
          rcases hr with rfl | hr
          · rcases hhV with rfl | rfl
            · intro h; exact absurd h (by decide)
            · intro h; exact absurd h (by decide)
          · exact ih r hr
        · simp only [one_ne_zero, if_false, if_true] at hr
          by_cases hrest : rest ≠ []
          · rw [if_pos hrest] at hr
            simp only [List.mem_singleton] at hr
            subst hr; intro _; rfl
          · rw [if_neg hrest] at hr
            cases next with
            | none =>
              simp only [List.mem_singleton] at hr
              subst hr; rw [getoptMissing_optstring]; exact getoptError_argOk
            | some a =>
              simp only [List.mem_singleton] at hr
              subst hr; intro _; rfl

theorem findLongOpt_mem (opts : List LongOpt) (name : CStr) (p : LongOpt)
    (h : findLongOpt opts name = some p) : p ∈ opts := by
  unfold findLongOpt at h
  cases hq : opts.find? (fun p => p.name = name) with
  | some q =>
    rw [hq] at h
    cases h
    exact List.mem_of_find?_eq_some hq
  | none =>
    rw [hq] at h
    cases hf : opts.filter (fun p => name.isPrefixOf p.name) with
    | nil => rw [hf] at h; cases h
    | cons q more =>
      have hq1 : q ∈ opts.filter (fun p => name.isPrefixOf p.name) := by
        rw [hf]; exact List.mem_cons_self _ _
      rw [hf] at h
      simp only at h
      split_ifs at h
      cases h
      exact (List.mem_filter.mp hq1).1

theorem longopts_args :
    ∀ p ∈ longopts, p.has_arg ≤ 1 ∧
      (p.has_arg = 0 → readsOptarg (if p.flag.isSome then 0 else p.val) = false) := by
  decide

theorem longOption_argOk (body : CStr) (next : Option CStr) :
    (longOption optstring longopts body next).1.argOk := by
  unfold longOption
  simp only
  cases hf : findLongOpt longopts (body.takeWhile (fun ch => ch ≠ '=')) with
  | none => exact getoptError_argOk
  | some p =>
    have hp := longopts_args p (findLongOpt_mem _ _ _ hf)
    simp only
    generalize (if p.flag.isSome = true then 0 else p.val) = cv at hp ⊢
    by_cases h1 : decide ((List.takeWhile (fun ch => decide (ch ≠ '=')) body).length
        < List.length body) = true
    · rw [if_pos h1]
      by_cases h2 : p.has_arg ≠ 0
      · rw [if_pos h2]; intro _; rfl
      · rw [if_neg h2]; exact getoptError_argOk
    · rw [if_neg h1]
      by_cases h3 : p.has_arg = 1
      · rw [if_pos h3]
        cases next with
        | none => simp only; rw [getoptMissing_optstring]; exact getoptError_argOk
        | some a => intro _; rfl
      · rw [if_neg h3]
        have h0 : p.has_arg = 0 := by have := hp.1; omega
        intro hr
        have := hp.2 h0
        simp only at hr
        rw [this] at hr
        exact absurd hr (by decide)

theorem getoptScan_argOk (posixly : Bool) (args : List CStr) :
    ∀ taken : Bool, ∀ r ∈ getoptScan posixly optstring longopts taken args, r.argOk := by
  induction args with
  | nil => intro taken r hr; cases taken <;> simp [getoptScan] at hr
  | cons a rest ih =>
    intro taken r hr
    cases taken with
    | true => simp only [getoptScan] at hr; exact ih false r hr
    | false =>
      simp only [getoptScan] at hr
      split_ifs at hr with h1 h2 h3 h4
      · simp at hr
      · simp at hr
      · exact ih false r hr
      · simp only [List.mem_cons] at hr
        rcases hr with rfl | hr
        · exact longOption_argOk _ _
        · exact ih _ r hr
      · simp only [List.mem_append] at hr
        rcases hr with hr | hr
        · exact shortCluster_argOk _ _ r hr
        · exact ih _ r hr

theorem getopt_long_argOk (posixly : Bool) (argv : List CStr) :
    ∀ r ∈ getopt_long posixly optstring longopts argv, r.argOk :=
  getoptScan_argOk posixly argv.tail false

/-! ## Theorems: the option loop of `main` -/

theorem applyStore_fields (v : Vars) (s : Option (FlagVar × Nat)) :
    (applyStore v s).in_geom = v.in_geom ∧ (applyStore v s).out_geom = v.out_geom ∧
    (applyStore v s).group = v.group ∧ (applyStore v s).mm = v.mm ∧
    (applyStore v s).x_shift = v.x_shift ∧ (applyStore v s).y_shift = v.y_shift ∧
    (applyStore v s).z_shift = v.z_shift := by
  cases s with
  | none => simp [applyStore]
  | some fv => obtain ⟨f, n⟩ := fv; cases f; simp [applyStore]

theorem toNat_codes :
    'h'.toNat = 104 ∧ 'V'.toNat = 86 ∧ 'g'.toNat = 103 ∧ 'i'.toNat = 105 ∧
    'o'.toNat = 111 ∧ 'p'.toNat = 112 ∧ '?'.toNat = 63 := by
  decide

theorem assignDouble_next {DT : Type} (E : Ext DT) (r : GetoptResult) (complain : Char)
    (set : ℚ → Vars) (v1 : Vars) (out : List Effect)
    (h : assignDouble (parse_double E r.optarg r.optarg complain) set = Step.next v1 out) :
    v1 = set (parsedValue E r) ∧ out = [] := by
  unfold assignDouble parse_double at h
  cases ho : r.optarg with
  | none => rw [ho] at h; cases h
  | some s =>
    rw [ho] at h
    simp only at h
    split_ifs at h with hrest
    cases h
    simp [parsedValue, ho]

/-- What one pass through the loop body that reaches `break` has done to the
variables, and what it has printed. -/
theorem loopBody_next {DT : Type} (E : Ext DT) (argv0 : Option CStr) (v v1 : Vars)
    (r : GetoptResult) (out : List Effect)
    (h : loopBody E argv0 v r = Step.next v1 out) :
    v1.in_geom = (if r.c = 'g'.toNat ∨ r.c = 'i'.toNat then r.optarg else v.in_geom) ∧
    v1.out_geom = (if r.c = 'o'.toNat then r.optarg else v.out_geom) ∧
    v1.group = (if r.c = 'p'.toNat then r.optarg else v.group) ∧
    v1.mm = (if r.c = 3 then 1 else v.mm) ∧
    v1.x_shift = (if r.c = 11 then parsedValue E r else v.x_shift) ∧
    v1.y_shift = (if r.c = 12 then parsedValue E r else v.y_shift) ∧
    v1.z_shift = (if r.c = 13 then parsedValue E r else v.z_shift) ∧
    (∀ e ∈ out, e = Effect.unhandledOption r.c) := by
  obtain ⟨a1, a2, a3, a4, a5, a6, a7⟩ := applyStore_fields v r.store
  obtain ⟨c1, c2, c3, c4, c5, c6, c7⟩ := toNat_codes
  unfold loopBody switchOption at h
  rw [c1, c2, c3, c4, c5, c6, c7] at h
  rw [c3, c4, c5, c6]
  clear c1 c2 c3 c4 c5 c6 c7
  by_cases h1 : r.c = 104
  · rw [if_pos h1] at h
    cases h
  rw [if_neg h1] at h
  by_cases h2 : r.c = 86
  · rw [if_pos h2] at h
    cases h
  rw [if_neg h2] at h
  by_cases h3 : r.c = 103 ∨ r.c = 105
  · rw [if_pos h3] at h
    cases ho : r.optarg with
    | none => rw [ho] at h; cases h
    | some s =>
      rw [ho] at h
      simp only [Step.next.injEq] at h
      obtain ⟨hv, hout⟩ := h
      subst hv; subst hout
      refine ⟨?_, ?_, ?_, ?_, ?_, ?_, ?_, ?_⟩
      all_goals (try split_ifs)
      all_goals first
        | rfl | exact a1 | exact a2 | exact a3 | exact a4 | exact a5 | exact a6 | exact a7
        | omega | (intro e he; simp at he)
  rw [if_neg h3] at h
  by_cases h4 : r.c = 111
  · rw [if_pos h4] at h
    cases ho : r.optarg with
    | none => rw [ho] at h; cases h
    | some s =>
      rw [ho] at h
      simp only [Step.next.injEq] at h
      obtain ⟨hv, hout⟩ := h
      subst hv; subst hout
      refine ⟨?_, ?_, ?_, ?_, ?_, ?_, ?_, ?_⟩
      all_goals (try split_ifs)
      all_goals first
        | rfl | exact a1 | exact a2 | exact a3 | exact a4 | exact a5 | exact a6 | exact a7
        | omega | (intro e he; simp at he)
  rw [if_neg h4] at h
  by_cases h5 : r.c = 112
  · rw [if_pos h5] at h
    cases ho : r.optarg with
    | none => rw [ho] at h; cases h
    | some s =>
      rw [ho] at h
      simp only [Step.next.injEq] at h
      obtain ⟨hv, hout⟩ := h
      subst hv; subst hout
      refine ⟨?_, ?_, ?_, ?_, ?_, ?_, ?_, ?_⟩
      all_goals (try split_ifs)
      all_goals first
        | rfl | exact a1 | exact a2 | exact a3 | exact a4 | exact a5 | exact a6 | exact a7
        | omega | (intro e he; simp at he)
  rw [if_neg h5] at h
  by_cases h6 : r.c = 3
  · rw [if_pos h6] at h
    simp only [Step.next.injEq] at h
    obtain ⟨hv, hout⟩ := h
    subst hv; subst hout
    refine ⟨?_, ?_, ?_, ?_, ?_, ?_, ?_, ?_⟩
    all_goals (try split_ifs)
    all_goals first
      | rfl | exact a1 | exact a2 | exact a3 | exact a4 | exact a5 | exact a6 | exact a7
      | omega | (intro e he; simp at he)
  rw [if_neg h6] at h
  by_cases h7 : r.c = 11
  · rw [if_pos h7] at h
    obtain ⟨hv, hout⟩ := assignDouble_next E r _ _ v1 out h
    subst hv; subst hout
    refine ⟨?_, ?_, ?_, ?_, ?_, ?_, ?_, ?_⟩
    all_goals (try split_ifs)
    all_goals first
      | rfl | exact a1 | exact a2 | exact a3 | exact a4 | exact a5 | exact a6 | exact a7
      | omega | (intro e he; simp at he)
  rw [if_neg h7] at h
  by_cases h8 : r.c = 12
  · rw [if_pos h8] at h
    obtain ⟨hv, hout⟩ := assignDouble_next E r _ _ v1 out h
    subst hv; subst hout
    refine ⟨?_, ?_, ?_, ?_, ?_, ?_, ?_, ?_⟩
    all_goals (try split_ifs)
    all_goals first
      | rfl | exact a1 | exact a2 | exact a3 | exact a4 | exact a5 | exact a6 | exact a7
      | omega | (intro e he; simp at he)
  rw [if_neg h8] at h
  by_cases h9 : r.c = 13
  · rw [if_pos h9] at h
    obtain ⟨hv, hout⟩ := assignDouble_next E r _ _ v1 out h
    subst hv; subst hout
    refine ⟨?_, ?_, ?_, ?_, ?_, ?_, ?_, ?_⟩
    all_goals (try split_ifs)
    all_goals first
      | rfl | exact a1 | exact a2 | exact a3 | exact a4 | exact a5 | exact a6 | exact a7
      | omega | (intro e he; simp at he)
  rw [if_neg h9] at h
  by_cases h10 : r.c = 14
  · rw [if_pos h10] at h
    obtain ⟨hv, hout⟩ := assignDouble_next E r _ _ v1 out h
    subst hv; subst hout
    refine ⟨?_, ?_, ?_, ?_, ?_, ?_, ?_, ?_⟩
    all_goals (try split_ifs)
    all_goals first
      | rfl | exact a1 | exact a2 | exact a3 | exact a4 | exact a5 | exact a6 | exact a7
      | omega | (intro e he; simp at he)
  rw [if_neg h10] at h
  by_cases h11 : r.c = 15
  · rw [if_pos h11] at h
    obtain ⟨hv, hout⟩ := assignDouble_next E r _ _ v1 out h
    subst hv; subst hout
    refine ⟨?_, ?_, ?_, ?_, ?_, ?_, ?_, ?_⟩
    all_goals (try split_ifs)
    all_goals first
      | rfl | exact a1 | exact a2 | exact a3 | exact a4 | exact a5 | exact a6 | exact a7
      | omega | (intro e he; simp at he)
  rw [if_neg h11] at h
  by_cases h12 : r.c = 16
  · rw [if_pos h12] at h
    obtain ⟨hv, hout⟩ := assignDouble_next E r _ _ v1 out h
    subst hv; subst hout
    refine ⟨?_, ?_, ?_, ?_, ?_, ?_, ?_, ?_⟩
    all_goals (try split_ifs)
    all_goals first
      | rfl | exact a1 | exact a2 | exact a3 | exact a4 | exact a5 | exact a6 | exact a7
      | omega | (intro e he; simp at he)
  rw [if_neg h12] at h
  by_cases h13 : r.c = 0
  · rw [if_pos h13] at h
    simp only [Step.next.injEq] at h
    obtain ⟨hv, hout⟩ := h
    subst hv; subst hout
    refine ⟨?_, ?_, ?_, ?_, ?_, ?_, ?_, ?_⟩
    all_goals (try split_ifs)
    all_goals first
      | rfl | exact a1 | exact a2 | exact a3 | exact a4 | exact a5 | exact a6 | exact a7
      | omega | (intro e he; simp at he)
  rw [if_neg h13] at h
  by_cases h14 : r.c = 63
  · rw [if_pos h14] at h
    simp only [Step.next.injEq] at h
    obtain ⟨hv, hout⟩ := h
    subst hv; subst hout
    refine ⟨?_, ?_, ?_, ?_, ?_, ?_, ?_, ?_⟩
    all_goals (try split_ifs)
    all_goals first
      | rfl | exact a1 | exact a2 | exact a3 | exact a4 | exact a5 | exact a6 | exact a7
      | omega | (intro e he; simp at he)
  rw [if_neg h14] at h
  simp only [Step.next.injEq] at h
  obtain ⟨hv, hout⟩ := h
  subst hv; subst hout
  refine ⟨?_, ?_, ?_, ?_, ?_, ?_, ?_, ?_⟩
  all_goals (try split_ifs)
  all_goals first
    | rfl | exact a1 | exact a2 | exact a3 | exact a4 | exact a5 | exact a6 | exact a7
    | omega | (intro e he; simpa using he)

theorem assignDouble_ok {DT : Type} (E : Ext DT) (r : GetoptResult) (complain : Char)
    (set : ℚ → Vars) (s : CStr) (ho : r.optarg = some s) (hs : (E.strtod s).2 = []) :
    assignDouble (parse_double E r.optarg r.optarg complain) set
      = Step.next (set (E.strtod s).1) [] := by
  unfold assignDouble parse_double
  rw [ho]
  simp [hs]

theorem assignDouble_stop {DT : Type} (E : Ext DT) (r : GetoptResult) (complain : Char)
    (set : ℚ → Vars) (status : Int) (out : List Effect)
    (h : assignDouble (parse_double E r.optarg r.optarg complain) set = Step.stop status out) :
    out = [Effect.invalidValue complain] := by
  unfold assignDouble parse_double at h
  cases ho : r.optarg with
  | none => rw [ho] at h; cases h
  | some s =>
    rw [ho] at h
    simp only at h
    by_cases hrest : (E.strtod s).2 ≠ []
    · rw [if_pos hrest] at h; cases h; rfl
    · rw [if_neg hrest] at h; cases h

/-- The loop body reaches `break` for every result that is neither `-h` nor
`-V`, that carries the argument `main` reads, and whose numeric argument
`strtod` reads to the end. -/
theorem loopBody_total {DT : Type} (E : Ext DT) (argv0 : Option CStr) (v : Vars)
    (r : GetoptResult) (hh : r.c ≠ 'h'.toNat) (hV : r.c ≠ 'V'.toNat) (hok : r.argOk)
    (hnum : r.c ∈ [11, 12, 13, 14, 15, 16] → ∀ s, r.optarg = some s → (E.strtod s).2 = []) :
    ∃ v1 out, loopBody E argv0 v r = Step.next v1 out := by
  obtain ⟨c1, c2, c3, c4, c5, c6, c7⟩ := toNat_codes
  have hopt : r.c ∈ [103, 105, 111, 112, 11, 12, 13, 14, 15, 16] → ∃ s, r.optarg = some s := by
    intro hm
    have : readsOptarg r.c = true := by
      unfold readsOptarg; rw [c3, c4, c5, c6]; exact decide_eq_true hm
    have h2 := hok this
    cases ho : r.optarg with
    | none => rw [ho] at h2; cases h2
    | some s => exact ⟨s, rfl⟩
  unfold loopBody switchOption
  rw [c1, c2, c3, c4, c5, c6, c7]
  rw [c1] at hh
  rw [c2] at hV
  clear c1 c2 c3 c4 c5 c6 c7
  rw [if_neg hh, if_neg hV]
  by_cases h3 : r.c = 103 ∨ r.c = 105
  · rw [if_pos h3]
    obtain ⟨s, ho⟩ := hopt (by rcases h3 with h | h <;> simp [h])
    rw [ho]
    exact ⟨_, _, rfl⟩
  rw [if_neg h3]
  by_cases h4 : r.c = 111
  · rw [if_pos h4]
    obtain ⟨s, ho⟩ := hopt (by simp [h4])
    rw [ho]
    exact ⟨_, _, rfl⟩
  rw [if_neg h4]
  by_cases h5 : r.c = 112
  · rw [if_pos h5]
    obtain ⟨s, ho⟩ := hopt (by simp [h5])
    rw [ho]
    exact ⟨_, _, rfl⟩
  rw [if_neg h5]
  by_cases h6 : r.c = 3
  · rw [if_pos h6]
    exact ⟨_, _, rfl⟩
  rw [if_neg h6]
  by_cases h7 : r.c = 11
  · rw [if_pos h7]
    obtain ⟨s, ho⟩ := hopt (by simp [h7])
    exact ⟨_, _, assignDouble_ok E r _ _ s ho (hnum (by simp [h7]) s ho)⟩
  rw [if_neg h7]
  by_cases h8 : r.c = 12
  · rw [if_pos h8]
    obtain ⟨s, ho⟩ := hopt (by simp [h8])
    exact ⟨_, _, assignDouble_ok E r _ _ s ho (hnum (by simp [h8]) s ho)⟩
  rw [if_neg h8]
  by_cases h9 : r.c = 13
  · rw [if_pos h9]
    obtain ⟨s, ho⟩ := hopt (by simp [h9])
    exact ⟨_, _, assignDouble_ok E r _ _ s ho (hnum (by simp [h9]) s ho)⟩
  rw [if_neg h9]
  by_cases h10 : r.c = 14
  · rw [if_pos h10]
    obtain ⟨s, ho⟩ := hopt (by simp [h10])
    exact ⟨_, _, assignDouble_ok E r _ _ s ho (hnum (by simp [h10]) s ho)⟩
  rw [if_neg h10]
  by_cases h11 : r.c = 15
  · rw [if_pos h11]
    obtain ⟨s, ho⟩ := hopt (by simp [h11])
    exact ⟨_, _, assignDouble_ok E r _ _ s ho (hnum (by simp [h11]) s ho)⟩
  rw [if_neg h11]
  by_cases h12 : r.c = 16
  · rw [if_pos h12]
    obtain ⟨s, ho⟩ := hopt (by simp [h12])
    exact ⟨_, _, assignDouble_ok E r _ _ s ho (hnum (by simp [h12]) s ho)⟩
  rw [if_neg h12]
  by_cases h13 : r.c = 0
  · rw [if_pos h13]
    exact ⟨_, _, rfl⟩
  rw [if_neg h13]
  by_cases h14 : r.c = 63
  · rw [if_pos h14]
    exact ⟨_, _, rfl⟩
  rw [if_neg h14]
  exact ⟨_, _, rfl⟩

/-- When the loop body leaves `main`, it has called nothing of the
data-template library. -/
theorem loopBody_stop_out {DT : Type} (E : Ext DT) (argv0 : Option CStr) (v : Vars)
    (r : GetoptResult) (status : Int) (out : List Effect)
    (h : loopBody E argv0 v r = Step.stop status out) :
    ∀ e ∈ out, e.isGeometryCall = false := by
  unfold loopBody switchOption at h
  by_cases h1 : r.c = 'h'.toNat
  · rw [if_pos h1] at h
    cases h
    intro e he
    simp only [List.mem_singleton] at he
    subst he; rfl
  rw [if_neg h1] at h
  by_cases h2 : r.c = 'V'.toNat
  · rw [if_pos h2] at h
    cases h
    intro e he
    simp only [List.mem_singleton] at he
    subst he; rfl
  rw [if_neg h2] at h
  by_cases h3 : r.c = 'g'.toNat ∨ r.c = 'i'.toNat
  · rw [if_pos h3] at h
    cases ho : r.optarg with
    | none => rw [ho] at h; cases h
    | some s => rw [ho] at h; cases h
  rw [if_neg h3] at h
  by_cases h4 : r.c = 'o'.toNat
  · rw [if_pos h4] at h
    cases ho : r.optarg with
    | none => rw [ho] at h; cases h
    | some s => rw [ho] at h; cases h
  rw [if_neg h4] at h
  by_cases h5 : r.c = 'p'.toNat
  · rw [if_pos h5] at h
    cases ho : r.optarg with
    | none => rw [ho] at h; cases h
    | some s => rw [ho] at h; cases h
  rw [if_neg h5] at h
  by_cases h6 : r.c = 3
  · rw [if_pos h6] at h
    cases h
  rw [if_neg h6] at h
  by_cases h7 : r.c = 11
  · rw [if_pos h7] at h
    have := assignDouble_stop E r _ _ status out h
    subst this
    intro e he
    simp only [List.mem_singleton] at he
    subst he; rfl
  rw [if_neg h7] at h
  by_cases h8 : r.c = 12
  · rw [if_pos h8] at h
    have := assignDouble_stop E r _ _ status out h
    subst this
    intro e he
    simp only [List.mem_singleton] at he
    subst he; rfl
  rw [if_neg h8] at h
  by_cases h9 : r.c = 13
  · rw [if_pos h9] at h
    have := assignDouble_stop E r _ _ status out h
    subst this
    intro e he
    simp only [List.mem_singleton] at he
    subst he; rfl
  rw [if_neg h9] at h
  by_cases h10 : r.c = 14
  · rw [if_pos h10] at h
    have := assignDouble_stop E r _ _ status out h
    subst this
    intro e he
    simp only [List.mem_singleton] at he
    subst he; rfl
  rw [if_neg h10] at h
  by_cases h11 : r.c = 15
  · rw [if_pos h11] at h
    have := assignDouble_stop E r _ _ status out h
    subst this
    intro e he
    simp only [List.mem_singleton] at he
    subst he; rfl
  rw [if_neg h11] at h
  by_cases h12 : r.c = 16
  · rw [if_pos h12] at h
    have := assignDouble_stop E r _ _ status out h
    subst this
    intro e he
    simp only [List.mem_singleton] at he
    subst he; rfl
  rw [if_neg h12] at h
  by_cases h13 : r.c = 0
  · rw [if_pos h13] at h
    cases h
  rw [if_neg h13] at h
  by_cases h14 : r.c = '?'.toNat
  · rw [if_pos h14] at h
    cases h
  rw [if_neg h14] at h
  cases h

theorem optionLoop_cons_next {DT : Type} (E : Ext DT) (argv0 : Option CStr) (v v2 : Vars)
    (r : GetoptResult) (rs : List GetoptResult) (out : List Effect)
    (h : optionLoop E argv0 v (r :: rs) = Step.next v2 out) :
    ∃ v1 o1 o2, loopBody E argv0 v r = Step.next v1 o1 ∧
      optionLoop E argv0 v1 rs = Step.next v2 o2 ∧ out = o1 ++ o2 := by
  simp only [optionLoop] at h
  cases hb : loopBody E argv0 v r with
  | undefined => rw [hb] at h; cases h
  | stop st o => rw [hb] at h; cases h
  | next v1 o1 =>
    rw [hb] at h
    simp only at h
    cases hl : optionLoop E argv0 v1 rs with
    | undefined => rw [hl] at h; cases h
    | stop st o => rw [hl] at h; cases h
    | next v3 o2 =>
      rw [hl] at h
      cases h
      exact ⟨v1, o1, o2, rfl, hl, rfl⟩

theorem optionLoop_cons_stop {DT : Type} (E : Ext DT) (argv0 : Option CStr) (v : Vars)
    (r : GetoptResult) (rs : List GetoptResult) (status : Int) (out : List Effect)
    (h : optionLoop E argv0 v (r :: rs) = Step.stop status out) :
    loopBody E argv0 v r = Step.stop status out ∨
    ∃ v1 o1 o2, loopBody E argv0 v r = Step.next v1 o1 ∧
      optionLoop E argv0 v1 rs = Step.stop status o2 ∧ out = o1 ++ o2 := by
  simp only [optionLoop] at h
  cases hb : loopBody E argv0 v r with
  | undefined => rw [hb] at h; cases h
  | stop st o => rw [hb] at h; cases h; exact Or.inl rfl
  | next v1 o1 =>
    rw [hb] at h
    simp only at h
    cases hl : optionLoop E argv0 v1 rs with
    | undefined => rw [hl] at h; cases h
    | next v3 o2 => rw [hl] at h; cases h
    | stop st o2 =>
      rw [hl] at h
      cases h
      exact Or.inr ⟨v1, o1, o2, rfl, hl, rfl⟩

theorem lastResult_cons (p : GetoptResult → Bool) (r : GetoptResult)
    (rs : List GetoptResult) :
    lastResult p (r :: rs) = (lastResult p rs).or (if p r then some r else none) := by
  unfold lastResult
  rw [List.reverse_cons, List.find?_append]
  congr 1
  by_cases hp : p r <;> simp [List.find?, hp]

/-- A variable that the loop body sets to `g r` for the results with `p r` and
leaves alone otherwise holds, after the loop, the value for the last such
result, or its initial value if there is none. -/
theorem optionLoop_field {DT : Type} (E : Ext DT) (argv0 : Option CStr) {β : Type}
    (f : Vars → β) (p : GetoptResult → Bool) (g : GetoptResult → β)
    (hstep : ∀ v r v1 out, loopBody E argv0 v r = Step.next v1 out →
      f v1 = if p r then g r else f v) :
    ∀ (rs : List GetoptResult) (v v2 : Vars) (out : List Effect),
      optionLoop E argv0 v rs = Step.next v2 out →
      f v2 = (match lastResult p rs with
              | some r => g r
              | none => f v) := by
  intro rs
  induction rs with
  | nil =>
    intro v v2 out h
    simp only [optionLoop, Step.next.injEq] at h
    rw [← h.1]; rfl
  | cons r rs ih =>
    intro v v2 out h
    obtain ⟨v1, o1, o2, hb, hl, -⟩ := optionLoop_cons_next E argv0 v v2 r rs out h
    have h1 := hstep v r v1 o1 hb
    have h2 := ih v1 v2 o2 hl
    rw [lastResult_cons]
    cases hlast : lastResult p rs with
    | some r1 => rw [hlast] at h2; simpa using h2
    | none =>
      rw [hlast] at h2
      simp only at h2
      rw [h2, h1]
      by_cases hp : p r <;> simp [hp]

/-- Whatever the option loop prints, it calls nothing of the data-template
library. -/
theorem optionLoop_next_out {DT : Type} (E : Ext DT) (argv0 : Option CStr) :
    ∀ (rs : List GetoptResult) (v v2 : Vars) (out : List Effect),
      optionLoop E argv0 v rs = Step.next v2 out →
      ∀ e ∈ out, ∃ c, e = Effect.unhandledOption c := by
  intro rs
  induction rs with
  | nil =>
    intro v v2 out h
    simp only [optionLoop, Step.next.injEq] at h
    rw [← h.2]; intro e he; cases he
  | cons r rs ih =>
    intro v v2 out h e he
    obtain ⟨v1, o1, o2, hb, hl, rfl⟩ := optionLoop_cons_next E argv0 v v2 r rs out h
    rcases List.mem_append.mp he with h1 | h2
    · exact ⟨r.c, (loopBody_next E argv0 v v1 r o1 hb).2.2.2.2.2.2.2 e h1⟩
    · exact ih v1 v2 o2 hl e h2

theorem optionLoop_stop_out {DT : Type} (E : Ext DT) (argv0 : Option CStr) :
    ∀ (rs : List GetoptResult) (v : Vars) (status : Int) (out : List Effect),
      optionLoop E argv0 v rs = Step.stop status out →
      ∀ e ∈ out, e.isGeometryCall = false := by
  intro rs
  induction rs with
  | nil => intro v status out h; simp only [optionLoop] at h; cases h
  | cons r rs ih =>
    intro v status out h e he
    rcases optionLoop_cons_stop E argv0 v r rs status out h with hb | ⟨v1, o1, o2, hb, hl, rfl⟩
    · exact loopBody_stop_out E argv0 v r status out hb e he
    · rcases List.mem_append.mp he with h1 | h2
      · rw [(loopBody_next E argv0 v v1 r o1 hb).2.2.2.2.2.2.2 e h1]; rfl
      · exact ih v1 status o2 hl e h2

/-- The option loop runs to the end (`getopt_long` returns -1) when no result
is `-h` or `-V`, every result carries the argument `main` reads, and every
numeric argument is read to its end by `strtod`. -/
theorem optionLoop_total {DT : Type} (E : Ext DT) (argv0 : Option CStr) :
    ∀ (rs : List GetoptResult) (v : Vars),
      (∀ r ∈ rs, r.c ≠ 'h'.toNat ∧ r.c ≠ 'V'.toNat) →
      (∀ r ∈ rs, r.argOk) →
      (∀ r ∈ rs, r.c ∈ [11, 12, 13, 14, 15, 16] →
        ∀ s, r.optarg = some s → (E.strtod s).2 = []) →
      ∃ v2 out, optionLoop E argv0 v rs = Step.next v2 out := by
  intro rs
  induction rs with
  | nil => intro v _ _ _; exact ⟨v, [], rfl⟩
  | cons r rs ih =>
    intro v h1 h2 h3
    obtain ⟨v1, o1, hb⟩ := loopBody_total E argv0 v r
      (h1 r (List.mem_cons_self _ _)).1 (h1 r (List.mem_cons_self _ _)).2
      (h2 r (List.mem_cons_self _ _)) (h3 r (List.mem_cons_self _ _))
    obtain ⟨v2, o2, hl⟩ := ih v1
      (fun x hx => h1 x (List.mem_cons_of_mem _ hx))
      (fun x hx => h2 x (List.mem_cons_of_mem _ hx))
      (fun x hx => h3 x (List.mem_cons_of_mem _ hx))
    refine ⟨v2, o1 ++ o2, ?_⟩
    simp only [optionLoop, hb, hl]

theorem lastResult_none (p : GetoptResult → Bool) (rs : List GetoptResult)
    (h : ∀ r ∈ rs, p r = false) : lastResult p rs = none := by
  unfold lastResult
  rw [List.find?_eq_none]
  intro r hr
  rw [h r (List.mem_reverse.mp hr)]
  exact Bool.false_ne_true

theorem lastResult_isSome (p : GetoptResult → Bool) (rs : List GetoptResult) :
    (lastResult p rs).isSome = rs.any p := by
  unfold lastResult
  rw [Bool.eq_iff_iff, List.find?_isSome, List.any_eq_true]
  constructor
  · rintro ⟨x, hx, hp⟩; exact ⟨x, List.mem_reverse.mp hx, hp⟩
  · rintro ⟨x, hx, hp⟩; exact ⟨x, List.mem_reverse.mpr hx, hp⟩

/-! ## Theorems: `main` of adjust_detector.c -/

/-- C5 (the code departs from its help text): on a command line
`prog --geometry=<in> -o <out>` the long option `--geometry` that `show_help`
documents is not in `longopts` (the table names it `input`), so `getopt_long`
answers `'?'`, `in_geom` stays NULL, and `main` prints the syntax line and
returns 1 without loading `<in>`. -/
theorem geometry_long_option_not_recognised {DT : Type} (E : Ext DT) (posixly : Bool)
    (prog inp out : CStr) :
    adjust_detector_main E posixly
        [prog, "--geometry=".toList ++ inp, "-o".toList, out]
      = some ⟨1, [Effect.syntaxLine (some prog)]⟩ := by
  have hscan : getopt_long posixly optstring longopts
      [prog, "--geometry=".toList ++ inp, "-o".toList, out]
      = [getoptError, ⟨'o'.toNat, some out, none⟩] := by
    have hname : List.takeWhile (fun ch => decide (ch ≠ '=')) ("geometry=".toList ++ inp)
        = "geometry".toList := by
      simp [List.takeWhile]
    have hfind : findLongOpt longopts "geometry".toList = none := by decide
    have hlong : longOption optstring longopts ("geometry=".toList ++ inp) (some "-o".toList)
        = (getoptError, false) := by
      unfold longOption
      simp only [hname, hfind]
    have hshort : shortCluster optstring ['o'] (some out)
        = ([⟨'o'.toNat, some out, none⟩], true) := by
      have hl : optstringLookup optstring 'o' = some 1 := by decide
      simp [shortCluster, hl]
    have h1 : ("--geometry=".toList ++ inp) ≠ ['-', '-'] := by simp
    have h2 : isNonOption ("--geometry=".toList ++ inp) = false := by simp [isNonOption]
    have h3 : isNonOption "-o".toList = false := by decide
    have h4 : ("--geometry=".toList ++ inp).drop 2 = "geometry=".toList ++ inp := by simp
    have h5 : ("--geometry=".toList ++ inp).tail.head? = some '-' := by simp
    unfold getopt_long
    simp only [List.tail_cons, getoptScan, h1, h2, h3, h4, h5, if_false, if_true,
      List.head?_cons, hlong, Bool.false_eq_true]
    have h6 : ("-o".toList : CStr) ≠ ['-', '-'] := by decide
    have h7 : ("-o".toList : CStr).tail.head? ≠ some '-' := by decide
    have h8 : ("-o".toList : CStr).tail = ['o'] := by decide
    simp only [h6, h7, h8, if_false, hshort, List.singleton_append]
    simp
  unfold adjust_detector_main
  rw [hscan]
  rfl

/-- The long option that `longopts` does have for the input file, `--input`,
is recognised: on `prog --input=<in> -o <out>` the first thing `main` does is
to load `<in>`. -/
theorem input_long_option_loads {DT : Type} (E : Ext DT) (posixly : Bool)
    (prog inp out : CStr) :
    (adjust_detector_main E posixly
        [prog, "--input=".toList ++ inp, "-o".toList, out]).map
      (fun o => o.trace.head?)
      = some (some (Effect.data_template_new_from_file inp)) := by
  have hscan : getopt_long posixly optstring longopts
      [prog, "--input=".toList ++ inp, "-o".toList, out]
      = [⟨'g'.toNat, some inp, none⟩, ⟨'o'.toNat, some out, none⟩] := by
    have hname : List.takeWhile (fun ch => decide (ch ≠ '=')) ("input=".toList ++ inp)
        = "input".toList := by
      simp [List.takeWhile]
    have hfind : findLongOpt longopts "input".toList
        = some ⟨"input".toList, 1, none, 'g'.toNat⟩ := by decide
    have hlong : longOption optstring longopts ("input=".toList ++ inp) (some "-o".toList)
        = (⟨'g'.toNat, some inp, none⟩, false) := by
      unfold longOption
      simp only [hname, hfind]
      simp
    have hshort : shortCluster optstring ['o'] (some out)
        = ([⟨'o'.toNat, some out, none⟩], true) := by
      have hl : optstringLookup optstring 'o' = some 1 := by decide
      simp [shortCluster, hl]
    have h1 : ("--input=".toList ++ inp) ≠ ['-', '-'] := by simp
    have h2 : isNonOption ("--input=".toList ++ inp) = false := by simp [isNonOption]
    have h4 : ("--input=".toList ++ inp).drop 2 = "input=".toList ++ inp := by simp
    have h5 : ("--input=".toList ++ inp).tail.head? = some '-' := by simp
    unfold getopt_long
    simp only [List.tail_cons, getoptScan, h1, h2, h4, h5, if_false, if_true,
      List.head?_cons, hlong, Bool.false_eq_true]
    have h6 : ("-o".toList : CStr) ≠ ['-', '-'] := by decide
    have h7 : isNonOption "-o".toList = false := by decide
    have h8 : ("-o".toList : CStr).tail = ['o'] := by decide
    simp only [h6, h7, h8, if_false, hshort, List.singleton_append, Bool.false_eq_true]
    simp
  have hloop : optionLoop E (some prog) Vars.init
      [⟨'g'.toNat, some inp, none⟩, ⟨'o'.toNat, some out, none⟩]
      = Step.next { Vars.init with in_geom := some inp, out_geom := some out } [] := rfl
  unfold adjust_detector_main
  rw [hscan]
  simp only [List.head?_cons, hloop, afterOptions, List.nil_append, Option.map_some']
  cases E.data_template_new_from_file inp <;> rfl

theorem afterOptions_missing {DT : Type} (E : Ext DT) (argv0 : Option CStr) (v : Vars)
    (h : v.in_geom = none ∨ v.out_geom = none) :
    afterOptions E argv0 v = ⟨1, [Effect.syntaxLine argv0]⟩ := by
  unfold afterOptions
  rcases h with h | h
  · rw [h]
  · rw [h]; cases v.in_geom <;> rfl

/-- C6: when the scan of the command line yields no `-h` or `-V`, every
numeric argument is read to its end by `strtod`, and either no input geometry
option (`-g`, `-i`, `--input`) or no output geometry option (`-o`, `--output`)
is among the results, `main` returns 1, the last thing it prints is the syntax
line, everything before it is an "Unhandled option" message, and it calls no
data-template function: nothing is loaded, moved or written. -/
theorem missing_geometry_file_exits_one {DT : Type} (E : Ext DT) (posixly : Bool)
    (argv : List CStr)
    (hhelp : ∀ r ∈ getopt_long posixly optstring longopts argv,
      r.c ≠ 'h'.toNat ∧ r.c ≠ 'V'.toNat)
    (hnum : ∀ r ∈ getopt_long posixly optstring longopts argv,
      r.c ∈ [11, 12, 13, 14, 15, 16] → ∀ s, r.optarg = some s → (E.strtod s).2 = [])
    (hmiss : (∀ r ∈ getopt_long posixly optstring longopts argv,
        r.c ≠ 'g'.toNat ∧ r.c ≠ 'i'.toNat) ∨
      (∀ r ∈ getopt_long posixly optstring longopts argv, r.c ≠ 'o'.toNat)) :
    ∃ out, adjust_detector_main E posixly argv
        = some ⟨1, out ++ [Effect.syntaxLine argv.head?]⟩ ∧
      (∀ e ∈ out, ∃ c, e = Effect.unhandledOption c) ∧
      (∀ e ∈ out ++ [Effect.syntaxLine argv.head?], e.isGeometryCall = false) := by
  obtain ⟨v2, out, hl⟩ := optionLoop_total E argv.head?
    (getopt_long posixly optstring longopts argv) Vars.init hhelp
    (getopt_long_argOk posixly argv) hnum
  have hout := optionLoop_next_out E argv.head? _ _ _ _ hl
  have hv : v2.in_geom = none ∨ v2.out_geom = none := by
    rcases hmiss with hm | hm
    · left
      have hf := optionLoop_field E argv.head? Vars.in_geom
        (fun r => decide (r.c = 'g'.toNat ∨ r.c = 'i'.toNat)) GetoptResult.optarg
        (fun v r v1 o hb => by
          have := (loopBody_next E argv.head? v v1 r o hb).1
          rw [this]; by_cases hc : r.c = 'g'.toNat ∨ r.c = 'i'.toNat <;> simp [hc])
        _ _ _ _ hl
      rw [lastResult_none _ _ (fun r hr => by
        exact decide_eq_false (not_or.mpr (hm r hr)))] at hf
      exact hf
    · right
      have hf := optionLoop_field E argv.head? Vars.out_geom
        (fun r => decide (r.c = 'o'.toNat)) GetoptResult.optarg
        (fun v r v1 o hb => by
          have := (loopBody_next E argv.head? v v1 r o hb).2.1
          rw [this]; by_cases hc : r.c = 'o'.toNat <;> simp [hc])
        _ _ _ _ hl
      rw [lastResult_none _ _ (fun r hr => by
        exact decide_eq_false (hm r hr))] at hf
      exact hf
  refine ⟨out, ?_, hout, ?_⟩
  · unfold adjust_detector_main
    rw [hl]
    simp only [afterOptions_missing E argv.head? v2 hv]
  · intro e he
    rcases List.mem_append.mp he with h1 | h1
    · obtain ⟨c, rfl⟩ := hout e h1; rfl
    · simp only [List.mem_singleton] at h1
      subst h1; rfl

theorem moveAndWrite_translations {DT : Type} (E : Ext DT) (v : Vars) (out_geom : CStr)
    (dt : DT) :
    (moveAndWrite E v out_geom dt).trace.filter Effect.isTranslation =
      [if v.mm ≠ 0 then
         Effect.data_template_translate_group_m v.group
           (v.x_shift * (1 / 1000)) (v.y_shift * (1 / 1000)) (v.z_shift * (1 / 1000))
       else
         Effect.data_template_translate_group_px v.group v.x_shift v.y_shift v.z_shift] := by
  unfold moveAndWrite
  by_cases hmm : v.mm ≠ 0
  · simp only [if_pos hmm]
    split_ifs <;> simp [List.filter, Effect.isTranslation]
  · simp only [if_neg hmm]
    split_ifs <;> simp [List.filter, Effect.isTranslation]

theorem afterOptions_translations {DT : Type} (E : Ext DT) (argv0 : Option CStr) (v : Vars)
    (h : Effect.data_template_reset_total_movements ∈ (afterOptions E argv0 v).trace) :
    (afterOptions E argv0 v).trace.filter Effect.isTranslation =
      [if v.mm ≠ 0 then
         Effect.data_template_translate_group_m v.group
           (v.x_shift * (1 / 1000)) (v.y_shift * (1 / 1000)) (v.z_shift * (1 / 1000))
       else
         Effect.data_template_translate_group_px v.group v.x_shift v.y_shift v.z_shift] := by
  unfold afterOptions at h ⊢
  cases hi : v.in_geom with
  | none => rw [hi] at h; simp at h
  | some ig =>
    cases ho : v.out_geom with
    | none => rw [hi, ho] at h; simp at h
    | some og =>
      rw [hi, ho] at h
      simp only at h ⊢
      cases hd : E.data_template_new_from_file ig with
      | none => rw [hd] at h; simp at h
      | some dt =>
        simp only
        rw [List.filter_cons]
        simp only [Effect.isTranslation, Bool.false_eq_true, if_false]
        exact moveAndWrite_translations E v og dt

/-- C7: in every run of `main` that reaches the movement step (the call of
`data_template_reset_total_movements`), exactly one translation operation is
called, exactly once, on the group selected with `-p` (`all` by default): with
`--mm` it is `data_template_translate_group_m` with the shifts divided by
1000, without `--mm` it is `data_template_translate_group_px` with the shifts
unchanged. -/
theorem mm_flag_selects_translation {DT : Type} (E : Ext DT) (posixly : Bool)
    (argv : List CStr) (o : Outcome)
    (hrun : adjust_detector_main E posixly argv = some o)
    (hreach : Effect.data_template_reset_total_movements ∈ o.trace) :
    o.trace.filter Effect.isTranslation =
      [expectedTranslation E (getopt_long posixly optstring longopts argv)] := by
  unfold adjust_detector_main at hrun
  cases hl : optionLoop E argv.head? Vars.init (getopt_long posixly optstring longopts argv) with
  | undefined => rw [hl] at hrun; cases hrun
  | stop st out =>
    rw [hl] at hrun
    cases hrun
    have := optionLoop_stop_out E argv.head? _ _ _ _ hl _ hreach
    cases this
  | next v2 out =>
    rw [hl] at hrun
    cases hrun
    have hout := optionLoop_next_out E argv.head? _ _ _ _ hl
    have hfo : out.filter Effect.isTranslation = [] := by
      rw [List.filter_eq_nil_iff]
      intro e he
      obtain ⟨c, rfl⟩ := hout e he
      exact Bool.false_ne_true
    have hreach2 : Effect.data_template_reset_total_movements
        ∈ (afterOptions E argv.head? v2).trace := by
      rcases List.mem_append.mp hreach with h1 | h1
      · obtain ⟨c, hc⟩ := hout _ h1; cases hc
      · exact h1
    simp only [List.filter_append, hfo, List.nil_append]
    rw [afterOptions_translations E argv.head? v2 hreach2]
    have hmm := optionLoop_field E argv.head? Vars.mm
      (fun r => decide (r.c = 3)) (fun _ => 1)
      (fun v r v1 o hb => by
        have := (loopBody_next E argv.head? v v1 r o hb).2.2.2.1
        rw [this]; by_cases hc : r.c = 3 <;> simp [hc])
      _ _ _ _ hl
    have hgr := optionLoop_field E argv.head? Vars.group
      (fun r => decide (r.c = 'p'.toNat)) GetoptResult.optarg
      (fun v r v1 o hb => by
        have := (loopBody_next E argv.head? v v1 r o hb).2.2.1
        rw [this]; by_cases hc : r.c = 'p'.toNat <;> simp [hc])
      _ _ _ _ hl
    have hx := optionLoop_field E argv.head? Vars.x_shift
      (fun r => decide (r.c = 11)) (parsedValue E)
      (fun v r v1 o hb => by
        have := (loopBody_next E argv.head? v v1 r o hb).2.2.2.2.1
        rw [this]; by_cases hc : r.c = 11 <;> simp [hc])
      _ _ _ _ hl
    have hy := optionLoop_field E argv.head? Vars.y_shift
      (fun r => decide (r.c = 12)) (parsedValue E)
      (fun v r v1 o hb => by
        have := (loopBody_next E argv.head? v v1 r o hb).2.2.2.2.2.1
        rw [this]; by_cases hc : r.c = 12 <;> simp [hc])
      _ _ _ _ hl
    have hz := optionLoop_field E argv.head? Vars.z_shift
      (fun r => decide (r.c = 13)) (parsedValue E)
      (fun v r v1 o hb => by
        have := (loopBody_next E argv.head? v v1 r o hb).2.2.2.2.2.2.1
        rw [this]; by_cases hc : r.c = 13 <;> simp [hc])
      _ _ _ _ hl
    have hgr2 : v2.group = groupGiven (getopt_long posixly optstring longopts argv) := hgr
    have hx2 : v2.x_shift = shiftGiven E 11 (getopt_long posixly optstring longopts argv) := hx
    have hy2 : v2.y_shift = shiftGiven E 12 (getopt_long posixly optstring longopts argv) := hy
    have hz2 : v2.z_shift = shiftGiven E 13 (getopt_long posixly optstring longopts argv) := hz
    have hmm2 : (v2.mm ≠ 0) ↔ mmGiven (getopt_long posixly optstring longopts argv) = true := by
      unfold mmGiven
      rw [← lastResult_isSome]
      cases hlast : lastResult (fun r => decide (r.c = 3))
          (getopt_long posixly optstring longopts argv) with
      | none => rw [hlast] at hmm; simp only at hmm; rw [hmm]; simp [Vars.init]
      | some r => rw [hlast] at hmm; simp only at hmm; rw [hmm]; simp
    unfold expectedTranslation
    rw [hgr2, hx2, hy2, hz2]
    by_cases hg : mmGiven (getopt_long posixly optstring longopts argv) = true
    · rw [if_pos (hmm2.mpr hg), if_pos hg]
      simp only [mul_one_div]
    · rw [if_neg (fun h => hg (hmm2.mp h)), if_neg hg]

/-- Witness for C6: `adjust_detector -o out.geom --mm` names no input file. -/
theorem missing_geometry_file_exits_one_witness :
    (∀ r ∈ getopt_long false optstring longopts argvNoInput,
      r.c ≠ 'g'.toNat ∧ r.c ≠ 'i'.toNat) ∧
    ∃ out, adjust_detector_main sampleExt false argvNoInput
        = some ⟨1, out ++ [Effect.syntaxLine argvNoInput.head?]⟩ ∧
      (∀ e ∈ out, ∃ c, e = Effect.unhandledOption c) ∧
      (∀ e ∈ out ++ [Effect.syntaxLine argvNoInput.head?], e.isGeometryCall = false) :=
  ⟨by decide,
   missing_geometry_file_exits_one sampleExt false argvNoInput (by decide)
     (fun r hr hc => absurd hc
       ((by decide : ∀ r ∈ getopt_long false optstring longopts argvNoInput,
          r.c ∉ [11, 12, 13, 14, 15, 16]) r hr))
     (Or.inl (by decide))⟩

/-- Witness for C7: `adjust_detector -g in.geom -o out.geom --mm --shiftx=2
-p q0` reaches the movement step and translates group `q0` in metres. -/
theorem mm_flag_selects_translation_witness :
    adjust_detector_main sampleExt false argvMillimetres = some outcomeMillimetres ∧
    Effect.data_template_reset_total_movements ∈ outcomeMillimetres.trace ∧
    outcomeMillimetres.trace.filter Effect.isTranslation =
      [expectedTranslation sampleExt (getopt_long false optstring longopts argvMillimetres)] :=
  ⟨rfl, by simp [outcomeMillimetres],
   mm_flag_selects_translation sampleExt false argvMillimetres outcomeMillimetres
     rfl (by simp [outcomeMillimetres])⟩

/-! ## Theorems: the gradient and the refinement engine, as the design
document describes them -/

/-- C3: for each of the six detector parameter identifiers, and every
reflection, unit cell and wavelength, `r_gradient` returns exactly zero. -/
theorem r_gradient_detector_zero
    (crystalGradient : gparam → Reflection → UnitCell → ℚ → ℚ) (g : gparam)
    (refl : Reflection) (cell : UnitCell) (wavelength : ℚ)
    (hg : g ∈ [gparam.GPARAM_DET_TX, gparam.GPARAM_DET_TY, gparam.GPARAM_DET_TZ,
               gparam.GPARAM_DET_RX, gparam.GPARAM_DET_RY, gparam.GPARAM_DET_RZ]) :
    r_gradient crystalGradient (g.val : Int) refl cell wavelength = some 0 := by
  simp only [List.mem_cons, List.mem_singleton, List.not_mem_nil, or_false] at hg
  rcases hg with rfl | rfl | rfl | rfl | rfl | rfl <;> rfl

/-- Witness for C3: the gradient for `GPARAM_DET_TX` is zero where the crystal
gradient is not. -/
theorem r_gradient_detector_zero_witness :
    r_gradient sampleCrystalGradient (gparam.GPARAM_A_STAR.val : Int) ⟨1, 2, 3⟩
        ⟨1, 0, 0, 0, 1, 0, 0, 0, 1⟩ 1 = some 1 ∧
    r_gradient sampleCrystalGradient (gparam.GPARAM_DET_TX.val : Int) ⟨1, 2, 3⟩
        ⟨1, 0, 0, 0, 1, 0, 0, 0, 1⟩ 1 = some 0 :=
  ⟨rfl, r_gradient_detector_zero sampleCrystalGradient gparam.GPARAM_DET_TX ⟨1, 2, 3⟩
    ⟨1, 0, 0, 0, 1, 0, 0, 0, 1⟩ 1 (by decide)⟩

/-- C4: whenever `refine_prediction` returns failure, the crystal after the
call is the crystal before the call, also when iterations had already updated
it; and failure is returned exactly when the engine did not end in
`CONVERGED`. -/
theorem refine_prediction_all_or_nothing {Image Crystal Incr Mille : Type}
    (M : RefineEngine Image Crystal Incr) (image : Image) (cr : Crystal)
    (mille : Option Mille) (max_mille_level : Int)
    (hfail : (refine_prediction M image cr mille max_mille_level).status ≠ 0) :
    (refine_prediction M image cr mille max_mille_level).crystal = cr ∧
    (refine_prediction M image cr mille max_mille_level).state ≠ RefineState.CONVERGED := by
  unfold refine_prediction at hfail ⊢
  by_cases hp : M.matchedPairs image cr < M.activeParams
  · simp [hp]
  · simp only [if_neg hp] at hfail ⊢
    generalize refineIterate M image M.iterationCap cr (M.residual image cr) = res at hfail ⊢
    obtain ⟨st, cr1⟩ := res
    cases st <;> simp at hfail ⊢

/-- Witness for C4: in `sampleEngine`, started at 0, two iterations move the
crystal to 2, the third solve is singular, and the call returns failure with
the crystal back at 0. -/
theorem refine_prediction_all_or_nothing_witness :
    refineIterate sampleEngine () 5 0 10 = (RefineState.DIVERGED, 2) ∧
    (refine_prediction sampleEngine () 0 (none : Option Unit) 0).status ≠ 0 ∧
    (refine_prediction sampleEngine () 0 (none : Option Unit) 0).crystal = 0 ∧
    (refine_prediction sampleEngine () 0 (none : Option Unit) 0).state
      ≠ RefineState.CONVERGED :=
  ⟨by norm_num [refineIterate, sampleEngine],
   by norm_num [refine_prediction, refineIterate, sampleEngine],
   refine_prediction_all_or_nothing sampleEngine () 0 (none : Option Unit) 0
     (by norm_num [refine_prediction, refineIterate, sampleEngine])⟩

end CrystFEL
